import Mathlib

/-!
Shallow embedding of the `python-mcp-server-template` repository.

The source under `src/src/mcp_server_template/server.py` registers six pure
handlers on a FastMCP server object: two tools (`add_numbers`,
`echo_message`), two resources (`get_config` at `config://app`,
`get_greeting` at `greeting://{name}`), and two prompts (`review_code`,
`explain_concept`).  Python integers are unbounded, so they are embedded as
`Int`; Python strings become `String`.  Each handler body is a single pure
expression, embedded verbatim below.  `models.py` defines a Pydantic model
`ExampleModel`, embedded as a structure together with its construction
defaults (the `datetime.now` default factory is embedded by passing the
creation-time clock value explicitly).
-/

namespace McpServerTemplate

/-- A single quote character, used in the `explain_concept` format string. -/
def squote : String := (Char.ofNat 39).toString

/-- Embeds `add_numbers` from `server.py`: `return a + b`. -/
def add_numbers (a b : Int) : Int := a + b

/-- Embeds `echo_message` from `server.py`: `return f"You said: {message}"`. -/
def echo_message (message : String) : String := "You said: " ++ message

/-- Embeds `get_config` from `server.py`:
`return "This is the application configuration data"`. -/
def get_config : String := "This is the application configuration data"

/-- Embeds `get_greeting` from `server.py`:
`return f"Hello, {name}! Welcome to the MCP server."`. -/
def get_greeting (name : String) : String :=
  "Hello, " ++ name ++ "! Welcome to the MCP server."

/-- Embeds `review_code` from `server.py`:
`return f"Please review this code and provide feedback:\n\n{code}"`. -/
def review_code (code : String) : String :=
  "Please review this code and provide feedback:\n\n" ++ code

/-- Embeds `explain_concept` from `server.py`:
`return f"Please explain the concept of {concept} in simple terms with examples."`
where the interpolated argument is wrapped in single quotes in the source. -/
def explain_concept (concept : String) : String :=
  "Please explain the concept of " ++ squote ++ concept ++ squote ++
    " in simple terms with examples."

/-- `s` contains `pat` as a contiguous substring (Python `pat in s`). -/
def containsSubstr (s pat : String) : Prop :=
  ∃ pre post, s = pre ++ pat ++ post

/-- The kind of a capability registered on the FastMCP server. -/
inductive CapKind where
  | tool
  | resource
  | prompt
deriving DecidableEq

/-- The registration list of `server.py`, in source order: each decorator
(`@mcp.tool()`, `@mcp.resource(...)`, `@mcp.prompt()`) adds one entry. -/
def registrations : List (CapKind × String) :=
  [ (CapKind.tool, "add_numbers"),
    (CapKind.tool, "echo_message"),
    (CapKind.resource, "config://app"),
    (CapKind.resource, "greeting://{name}"),
    (CapKind.prompt, "review_code"),
    (CapKind.prompt, "explain_concept") ]

/-- Number of registered capabilities of a given kind. -/
def countKind (k : CapKind) : Nat :=
  (registrations.filter fun r => r.1 == k).length

/-- Embeds `ExampleModel` from `models.py`: Pydantic model with fields
`id : str`, `name : str`, `description : str | None = None`,
`created_at : datetime = Field(default_factory=datetime.now)`.
Timestamps are embedded as `Nat`. -/
structure ExampleModel where
  id : String
  name : String
  description : Option String
  created_at : Nat

/-- Embeds `ExampleModel(id=..., name=...)`: constructing the model giving
only `id` and `name`.  `description` takes its declared default `None`, and
`created_at` takes the value the `datetime.now` default factory produces at
construction time, passed here explicitly as `now`. -/
def ExampleModel.create (now : Nat) (id name : String) : ExampleModel :=
  { id := id, name := name, description := none, created_at := now }

end McpServerTemplate

namespace McpServerTemplate

/-- C1: for every pair of integers, `add_numbers` returns their sum, and in
particular `add_numbers 2 3 = 5`. -/
theorem C1_add_numbers_correct :
    (∀ a b : Int, add_numbers a b = a + b) ∧ add_numbers 2 3 = 5 :=
  ⟨fun _ _ => rfl, rfl⟩

/-- C2: for every string, `echo_message` returns `"You said: "` followed by
the message, and in particular `echo_message "Hello" = "You said: Hello"`. -/
theorem C2_echo_message_correct :
    (∀ message : String, echo_message message = "You said: " ++ message) ∧
      echo_message "Hello" = "You said: Hello" :=
  ⟨fun _ => rfl, by decide⟩

/-- C3: for every string `name`, `get_greeting name` contains the substring
`"Hello, " ++ name ++ "!"`, and in particular `get_greeting "Alice"`
contains `"Hello, Alice!"`. -/
theorem C3_get_greeting_contains :
    (∀ name : String,
      containsSubstr (get_greeting name) ("Hello, " ++ name ++ "!")) ∧
      containsSubstr (get_greeting "Alice") "Hello, Alice!" := by
  constructor
  · intro name
    refine ⟨"", " Welcome to the MCP server.", ?_⟩
    have h : ("!" : String) ++ " Welcome to the MCP server." =
        "! Welcome to the MCP server." := by decide
    calc get_greeting name
        = "Hello, " ++ name ++ ("!" ++ " Welcome to the MCP server.") := by
          rw [h]; rfl
      _ = "" ++ ("Hello, " ++ name ++ "!") ++ " Welcome to the MCP server." := by
          simp only [String.empty_append, String.append_assoc]
  · exact ⟨"", " Welcome to the MCP server.", by decide⟩

/-- C4: for every string `code`, `review_code code` contains both the fixed
phrase `"review this code"` and the literal `code` input. -/
theorem C4_review_code_contains (code : String) :
    containsSubstr (review_code code) "review this code" ∧
      containsSubstr (review_code code) code := by
  constructor
  · refine ⟨"Please ", " and provide feedback:\n\n" ++ code, ?_⟩
    have h : ("Please " : String) ++ "review this code" ++
        " and provide feedback:\n\n" =
        "Please review this code and provide feedback:\n\n" := by decide
    calc review_code code
        = "Please " ++ "review this code" ++ " and provide feedback:\n\n"
            ++ code := by rw [h]; rfl
      _ = "Please " ++ "review this code" ++
            (" and provide feedback:\n\n" ++ code) := by
          rw [String.append_assoc]
  · refine ⟨"Please review this code and provide feedback:\n\n", "", ?_⟩
    rw [String.append_empty]; rfl

/-- C4 witness: the containment facts at the concrete input used by the
repository's test suite. -/
theorem C4_review_code_contains_witness :
    containsSubstr (review_code "def hello(): pass") "review this code" ∧
      containsSubstr (review_code "def hello(): pass") "def hello(): pass" :=
  C4_review_code_contains "def hello(): pass"

/-- C5: for every string `concept`, `explain_concept concept` contains both
the literal `concept` input and the substring `"explain"`; in particular at
`"recursion"`. -/
theorem C5_explain_concept_contains :
    (∀ concept : String,
      containsSubstr (explain_concept concept) concept ∧
        containsSubstr (explain_concept concept) "explain") ∧
      (containsSubstr (explain_concept "recursion") "recursion" ∧
        containsSubstr (explain_concept "recursion") "explain") := by
  have key : ∀ concept : String,
      containsSubstr (explain_concept concept) concept ∧
        containsSubstr (explain_concept concept) "explain" := by
    intro concept
    constructor
    · refine ⟨"Please explain the concept of " ++ squote,
        squote ++ " in simple terms with examples.", ?_⟩
      show "Please explain the concept of " ++ squote ++ concept ++ squote ++
          " in simple terms with examples." = _
      rw [String.append_assoc, String.append_assoc, String.append_assoc]
    · refine ⟨"Please ",
        " the concept of " ++ squote ++ concept ++ squote ++
          " in simple terms with examples.", ?_⟩
      have h : ("Please " : String) ++ "explain" ++ " the concept of " =
          "Please explain the concept of " := by decide
      show "Please explain the concept of " ++ squote ++ concept ++ squote ++
          " in simple terms with examples." = _
      rw [← h]
      repeat rw [String.append_assoc]
  exact ⟨key, key "recursion"⟩

/-- C6: `get_config` returns a string containing the substring
`"configuration"`. -/
theorem C6_get_config_contains :
    containsSubstr get_config "configuration" :=
  ⟨"This is the application ", " data", by decide⟩

/-- C7 counterexample: the registration module does NOT define exactly three
tools — the tool count of the source's registration list is 2, not 3. -/
theorem C7_three_tools_counterexample :
    ¬ countKind CapKind.tool = 3 := by decide

/-- C7 (amended): the registration module defines exactly two example tools,
exactly two resources, and exactly two prompts. -/
theorem C7_registration_counts :
    countKind CapKind.tool = 2 ∧ countKind CapKind.resource = 2 ∧
      countKind CapKind.prompt = 2 := by decide

/-- C8: every handler is total over its stated domain — for every input of
the declared type it returns a value of the declared return type. -/
theorem C8_handlers_total :
    (∀ a b : Int, ∃ r : Int, add_numbers a b = r) ∧
      (∀ message : String, ∃ r : String, echo_message message = r) ∧
      (∃ r : String, get_config = r) ∧
      (∀ name : String, ∃ r : String, get_greeting name = r) ∧
      (∀ code : String, ∃ r : String, review_code code = r) ∧
      (∀ concept : String, ∃ r : String, explain_concept concept = r) :=
  ⟨fun a b => ⟨add_numbers a b, rfl⟩, fun m => ⟨echo_message m, rfl⟩,
    ⟨get_config, rfl⟩, fun n => ⟨get_greeting n, rfl⟩,
    fun c => ⟨review_code c, rfl⟩, fun k => ⟨explain_concept k, rfl⟩⟩

/-- C9: handlers are pure and deterministic — two invocations of the same
handler with equal arguments return equal values (the embedding is as pure
functions of their arguments alone, faithful to the source, whose handler
bodies read and write no state). -/
theorem C9_handlers_deterministic (a a' b b' : Int)
    (m m' n n' c c' k k' : String)
    (ha : a = a') (hb : b = b') (hm : m = m') (hn : n = n')
    (hc : c = c') (hk : k = k') :
    add_numbers a b = add_numbers a' b' ∧
      echo_message m = echo_message m' ∧
      get_config = get_config ∧
      get_greeting n = get_greeting n' ∧
      review_code c = review_code c' ∧
      explain_concept k = explain_concept k' := by
  subst ha hb hm hn hc hk
  exact ⟨rfl, rfl, rfl, rfl, rfl, rfl⟩

/-- C9 witness: determinism instantiated at concrete inputs. -/
theorem C9_handlers_deterministic_witness :
    add_numbers 2 3 = add_numbers 2 3 ∧
      echo_message "Hello" = echo_message "Hello" ∧
      get_config = get_config ∧
      get_greeting "Alice" = get_greeting "Alice" ∧
      review_code "x = 1" = review_code "x = 1" ∧
      explain_concept "recursion" = explain_concept "recursion" :=
  C9_handlers_deterministic 2 2 3 3 "Hello" "Hello" "Alice" "Alice"
    "x = 1" "x = 1" "recursion" "recursion" rfl rfl rfl rfl rfl rfl

/-- C10: constructing the example record with only `id` and `name` succeeds,
`description` then equals `none`, and `created_at` equals the creation-time
clock value produced by the default factory. -/
theorem C10_example_model_defaults (now : Nat) (id name : String) :
    (ExampleModel.create now id name).description = none ∧
      (ExampleModel.create now id name).created_at = now ∧
      (ExampleModel.create now id name).id = id ∧
      (ExampleModel.create now id name).name = name :=
  ⟨rfl, rfl, rfl, rfl⟩

end McpServerTemplate
